import Mathlib

/-!
Verification of the GIC lifecycle manager (src/arch/src/aarch64/gic/mod.rs)
and the virtio device activation protocol
(src/devices/src/virtio/subscriber_device.rs), as a shallow embedding.

The hypervisor device ABI (kvm_ioctls / kvm_bindings) is modelled as a
response oracle; every kernel-visible call made by the code is recorded in
an explicit trace so that ordering and payload properties can be stated.
-/

namespace Gic

/-- Opaque kernel error code, standing for kvm_ioctls::Error. -/
abbrev KvmError := Nat

/-- Errors thrown while setting up the GIC, from the source enum Error:
CreateGIC(kvm_ioctls::Error) and DeviceAttribute(kvm_ioctls::Error, bool, u32). -/
inductive Error where
  | CreateGIC (e : KvmError)
  | DeviceAttribute (e : KvmError) (isSet : Bool) (group : Nat)
  deriving DecidableEq

/-- Attribute group constant KVM_DEV_ARM_VGIC_GRP_NR_IRQS from kvm_bindings
(Linux UAPI value). -/
def KVM_DEV_ARM_VGIC_GRP_NR_IRQS : Nat := 3

/-- Attribute group constant KVM_DEV_ARM_VGIC_GRP_CTRL from kvm_bindings
(Linux UAPI value). -/
def KVM_DEV_ARM_VGIC_GRP_CTRL : Nat := 4

/-- Attribute id KVM_DEV_ARM_VGIC_CTRL_INIT from kvm_bindings (Linux UAPI
value). -/
def KVM_DEV_ARM_VGIC_CTRL_INIT : Nat := 0

/-- Kernel device type tag for the older GIC variant,
KVM_DEV_TYPE_ARM_VGIC_V2 (Linux UAPI value). -/
def KVM_DEV_TYPE_ARM_VGIC_V2 : Nat := 5

/-- Kernel device type tag for the newer GIC variant,
KVM_DEV_TYPE_ARM_VGIC_V3 (Linux UAPI value). -/
def KVM_DEV_TYPE_ARM_VGIC_V3 : Nat := 7

/-- The addr argument of a set_device_attribute call. The source passes
either a literal value (0 for the control-init call) or a pointer to a
32-bit value (a pointer to nr_irqs for the IRQ-count call); ptrTo records
the pointed-to value, which is what the kernel reads. -/
inductive AddrArg where
  | lit (v : Nat)
  | ptrTo (v : Nat)
  deriving DecidableEq

/-- One kvm_device_attr record as built by set_device_attribute. -/
structure AttrCall where
  group : Nat
  attr : Nat
  addr : AddrArg
  flags : Nat
  deriving DecidableEq

/-- A kernel-visible operation issued by the GIC construction code. -/
inductive KernelOp where
  | createDev (ty : Nat)
  | setAttr (fd : Nat) (c : AttrCall)
  deriving DecidableEq

/-- Modelled from the spec: the hypervisor device ABI of section 6
(create_device and set_device_attribute primitives of the VM handle, which
are external collaborators), as response oracles. createDevice maps a
device type to a device fd or a kernel error; setDeviceAttr maps a device
fd and an attribute record to success or a kernel error. -/
structure Kvm where
  createDevice : Nat → Except KvmError Nat
  setDeviceAttr : Nat → AttrCall → Except KvmError Unit

/-- Embedding of the trait method set_device_attribute: builds the
kvm_device_attr record, issues the ioctl (recorded in the trace), and maps
a kernel failure to Error.DeviceAttribute(e, true, group). -/
def set_device_attribute (kvm : Kvm) (fd : Nat) (group attr : Nat)
    (addr : AddrArg) (flags : Nat) : Except Error Unit × List KernelOp :=
  let c : AttrCall := { group := group, attr := attr, addr := addr, flags := flags }
  match kvm.setDeviceAttr fd c with
  | .ok _ => (.ok (), [.setAttr fd c])
  | .error e => (.error (.DeviceAttribute e true group), [.setAttr fd c])

/-- The IRQ-count attribute record issued by finalize_device: group
KVM_DEV_ARM_VGIC_GRP_NR_IRQS, attr 0, addr = pointer to nr_irqs (whose
value is the IRQ ceiling irq_max), flags 0. -/
def nrIrqsCall (irq_max : Nat) : AttrCall :=
  { group := KVM_DEV_ARM_VGIC_GRP_NR_IRQS, attr := 0, addr := .ptrTo irq_max, flags := 0 }

/-- The control-init attribute record issued by finalize_device: group
KVM_DEV_ARM_VGIC_GRP_CTRL, attr KVM_DEV_ARM_VGIC_CTRL_INIT, addr 0
(literal, no payload), flags 0. -/
def ctrlInitCall : AttrCall :=
  { group := KVM_DEV_ARM_VGIC_GRP_CTRL, attr := KVM_DEV_ARM_VGIC_CTRL_INIT,
    addr := .lit 0, flags := 0 }

/-- Embedding of the trait method finalize_device. The source sets
nr_irqs := super::layout::IRQ_MAX (the layout module is outside the
excerpt, so the ceiling is taken as the parameter irq_max) and passes a
pointer to it under group NR_IRQS; on success it then sets the CTRL group
attribute KVM_DEV_ARM_VGIC_CTRL_INIT with addr 0. -/
def finalize_device (kvm : Kvm) (irq_max : Nat) (fd : Nat) :
    Except Error Unit × List KernelOp :=
  let r1 := set_device_attribute kvm fd KVM_DEV_ARM_VGIC_GRP_NR_IRQS 0
    (.ptrTo irq_max) 0
  match r1.1 with
  | .error e => (.error e, r1.2)
  | .ok _ =>
    let r2 := set_device_attribute kvm fd KVM_DEV_ARM_VGIC_GRP_CTRL
      KVM_DEV_ARM_VGIC_CTRL_INIT (.lit 0) 0
    (r2.1, r1.2 ++ r2.2)

/-- The data carried by a constructed GIC device value: device fd, region
properties, vcpu count, fdt compatibility string and maintenance irq, per
the GICDevice trait accessors. -/
structure GICDeviceData where
  device_fd : Nat
  properties : List Nat
  vcpu_count : Nat
  compatibility : String
  maint_irq : Nat
  deriving DecidableEq

/-- A GIC version strategy variant: the kernel device type tag returned by
version(), the static data consumed by create_device, and the
variant-specific init_device_attributes step (its concrete body lives in
gicv2.rs / gicv3.rs, outside the excerpt, so it is carried here as a
field; the lifecycle theorems hold for every body). -/
structure Variant where
  version : Nat
  props : Nat → List Nat
  compat : String
  maint_irq : Nat
  initDeviceAttributes : Kvm → GICDeviceData → Except Error Unit × List KernelOp

/-- Embedding of the trait method create_device: infallibly wraps the
device fd and the vcpu count together with the static variant properties
into a GIC device value. -/
def Variant.create_device (v : Variant) (fd : Nat) (vcpu_count : Nat) :
    GICDeviceData :=
  { device_fd := fd, properties := v.props vcpu_count, vcpu_count := vcpu_count,
    compatibility := v.compat, maint_irq := v.maint_irq }

/-- Embedding of the trait method init_device: asks the VM handle to create
a kernel device of the variant type; a kernel failure becomes
Error.CreateGIC. -/
def init_device (kvm : Kvm) (v : Variant) : Except Error Nat × List KernelOp :=
  match kvm.createDevice v.version with
  | .ok fd => (.ok fd, [.createDev v.version])
  | .error e => (.error (.CreateGIC e), [.createDev v.version])

/-- Embedding of the trait method new: init_device, then the infallible
create_device wrap, then init_device_attributes, then finalize_device;
the first failure aborts the attempt with that error. -/
def new (kvm : Kvm) (irq_max : Nat) (v : Variant) (vcpu_count : Nat) :
    Except Error GICDeviceData × List KernelOp :=
  let r0 := init_device kvm v
  match r0.1 with
  | .error e => (.error e, r0.2)
  | .ok vgic_fd =>
    let device := v.create_device vgic_fd vcpu_count
    let r1 := v.initDeviceAttributes kvm device
    match r1.1 with
    | .error e => (.error e, r0.2 ++ r1.2)
    | .ok _ =>
      let r2 := finalize_device kvm irq_max device.device_fd
      match r2.1 with
      | .error e => (.error e, r0.2 ++ r1.2 ++ r2.2)
      | .ok _ => (.ok device, r0.2 ++ r1.2 ++ r2.2)

/-- Modelled from the spec: the older variant GICv2 (gicv2.rs is outside
the excerpt). Version tag KVM_DEV_TYPE_ARM_VGIC_V2; its configure step
sets the distributor region then the CPU-interface region under the
address attribute group, per section 4.2; region base values are
representative placeholders. -/
def GICv2 : Variant :=
  { version := KVM_DEV_TYPE_ARM_VGIC_V2
    props := fun _ => [4096, 4096, 8192, 4096]
    compat := "arm,gic-400"
    maint_irq := 8
    initDeviceAttributes := fun kvm d =>
      let r1 := set_device_attribute kvm d.device_fd 0 0 (.ptrTo 4096) 0
      match r1.1 with
      | .error e => (.error e, r1.2)
      | .ok _ =>
        let r2 := set_device_attribute kvm d.device_fd 0 1 (.ptrTo 8192) 0
        (r2.1, r1.2 ++ r2.2) }

/-- Modelled from the spec: the newer variant GICv3 (gicv3.rs is outside
the excerpt). Version tag KVM_DEV_TYPE_ARM_VGIC_V3; its configure step
sets the distributor region then the redistributor region under the
address attribute group, per section 4.2; region base values are
representative placeholders. -/
def GICv3 : Variant :=
  { version := KVM_DEV_TYPE_ARM_VGIC_V3
    props := fun n => [4096, 65536, 8192, 131072 * n]
    compat := "arm,gic-v3"
    maint_irq := 9
    initDeviceAttributes := fun kvm d =>
      let r1 := set_device_attribute kvm d.device_fd 0 2 (.ptrTo 4096) 0
      match r1.1 with
      | .error e => (.error e, r1.2)
      | .ok _ =>
        let r2 := set_device_attribute kvm d.device_fd 0 3 (.ptrTo 8192) 0
        (r2.1, r1.2 ++ r2.2) }

/-- Embedding of create_gic: GICv3::new(vm, vcpu_count).or_else(|_|
GICv2::new(vm, vcpu_count)). The first error is discarded by or_else; the
trace records both attempts when the first fails. -/
def create_gic (kvm : Kvm) (irq_max vcpu_count : Nat) :
    Except Error GICDeviceData × List KernelOp :=
  let r3 := new kvm irq_max GICv3 vcpu_count
  match r3.1 with
  | .ok d => (.ok d, r3.2)
  | .error _ =>
    let r2 := new kvm irq_max GICv2 vcpu_count
    (r2.1, r3.2 ++ r2.2)

/-- An oracle on which every kernel call succeeds (fds are 0). -/
def kvmOk : Kvm :=
  { createDevice := fun _ => .ok 0, setDeviceAttr := fun _ _ => .ok () }

/-- An oracle on which device creation fails with an error equal to the
requested device type tag, so the two variant attempts fail with
distinguishable errors. -/
def kvmNoCreate : Kvm :=
  { createDevice := fun ty => .error ty, setDeviceAttr := fun _ _ => .ok () }

/-- An oracle that rejects exactly the IRQ-count attribute group (with
kernel error 22, EINVAL) and accepts everything else. -/
def kvmRejectNrIrqs : Kvm :=
  { createDevice := fun _ => .ok 0,
    setDeviceAttr := fun _ c =>
      if c.group == KVM_DEV_ARM_VGIC_GRP_NR_IRQS then .error 22 else .ok () }

end Gic

namespace VirtioDev

/-- One epoll_event as returned by interest_list(): an events mask and a
64-bit user data word (the source expects the fd to be stored in data). -/
structure EpollEvent where
  events : Nat
  data : Nat
  deriving DecidableEq

/-- The cast `event.data() as i32` from the source: a u64 truncated to its
low 32 bits and reinterpreted as a signed 32-bit integer. -/
def dataAsI32 (d : Nat) : Int :=
  let m : Nat := d % 2 ^ 32
  if m < 2 ^ 31 then (m : Int) else (m : Int) - 2 ^ 32

/-- Modelled from the spec: the reactor subscriber registry of section 6
(the polly EventManager is an external collaborator, outside the excerpt):
a finite map from fd to subscriber handle, held as an association list. -/
structure EventManager where
  registry : List (Int × Nat)
  deriving DecidableEq

/-- Modelled from the spec: subscriber_for(fd) of section 6 — looks the fd
up in the registry, NotFound (none) when absent. -/
def EventManager.subscriber (em : EventManager) (fd : Int) : Option Nat :=
  (em.registry.find? (fun p => p.1 == fd)).map Prod.snd

/-- Modelled from the spec: register(fd, event_descriptor, handle) of
section 6 — adds the fd-to-handle binding; may fail (the Bool result),
with failure injected by the caller-supplied flag, in which case the
registry is unchanged. -/
def EventManager.register (em : EventManager) (fail : Bool) (fd : Int)
    (_ev : EpollEvent) (h : Nat) : EventManager × Bool :=
  if fail then (em, false)
  else ({ registry := em.registry ++ [(fd, h)] }, true)

/-- Modelled from the spec: unregister(fd) of section 6 — removes the fd
binding; fails (Bool false) when the fd is not registered. -/
def EventManager.unregister (em : EventManager) (fd : Int) :
    EventManager × Bool :=
  if em.registry.any (fun p => p.1 == fd) then
    ({ registry := em.registry.filter (fun p => p.1 != fd) }, true)
  else (em, false)

/-- The per-device data consumed by process_activate_event: the device
type tag, the raw fd of the activation EventFd, and the list
interest_list() returns at activation time. -/
structure Device where
  device_type : Nat
  activate_fd : Int
  interest_list : List EpollEvent
  deriving DecidableEq

/-- The environment of one run of process_activate_event: the outcome of
the EventFd read that drains the activation signal, and the injected
failure outcome of each register call, keyed by fd. -/
structure Env where
  drainOk : Bool
  registerFail : Int → Bool

/-- An observable effect of one run of process_activate_event: the drain
read of the activation eventfd, the subscriber lookup, and the register
and unregister calls on the event manager. -/
inductive Effect where
  | drain (fd : Int) (ok : Bool)
  | lookup (fd : Int) (found : Bool)
  | registerOp (fd : Int) (ev : EpollEvent) (handle : Nat) (ok : Bool)
  | unregisterOp (fd : Int) (ok : Bool)
  deriving DecidableEq

/-- The registration loop of process_activate_event: for each event of the
interest list, register it under key `event.data() as i32` with the
subscriber handle; an individual failure is logged and skipped (the loop
continues and the registry is unchanged for that entry). -/
def registerLoop (env : Env) (h : Nat) (evs : List EpollEvent)
    (em : EventManager) : EventManager × List Effect :=
  match evs with
  | [] => (em, [])
  | ev :: rest =>
    let fd := dataAsI32 ev.data
    let r := em.register (env.registerFail fd) fd ev h
    let r2 := registerLoop env h rest r.1
    (r2.1, .registerOp fd ev h r.2 :: r2.2)

/-- Embedding of process_activate_event. The source: drains the activation
eventfd (a failure is only logged); looks up its own subscriber handle
under the activation fd, returning early on failure; registers each
interest-list event under key data-as-i32 with the handle (individual
failures logged and skipped); finally unregisters the activation fd (a
failure is only logged). The device itself is taken by shared reference
and returned unchanged; the second and third components are the updated
event manager and the effect trace. -/
def process_activate_event (d : Device) (env : Env) (em : EventManager) :
    Device × EventManager × List Effect :=
  let drainEff := Effect.drain d.activate_fd env.drainOk
  match em.subscriber d.activate_fd with
  | none => (d, em, [drainEff, .lookup d.activate_fd false])
  | some self_subscriber =>
    let r := registerLoop env self_subscriber d.interest_list em
    let u := r.1.unregister d.activate_fd
    (d, u.1,
      drainEff :: .lookup d.activate_fd true ::
        (r.2 ++ [.unregisterOp d.activate_fd u.2]))

/-- Holds of the drain effect only; used to count drains in a trace. -/
def Effect.isDrain : Effect → Bool
  | .drain _ _ => true
  | _ => false

/-- The register keys of a trace, in order: the fd argument of each
register call in it. -/
def regKeys (t : List Effect) : List Int :=
  t.filterMap (fun e =>
    match e with
    | .registerOp fd _ _ _ => some fd
    | _ => none)

/-- An environment in which the drain succeeds and no register call fails. -/
def envAllOk : Env := { drainOk := true, registerFail := fun _ => false }

/-- An environment in which the register call for fd 12 fails and all
other operations succeed. -/
def envFail12 : Env := { drainOk := true, registerFail := fun fd => fd == 12 }

/-- The device of the spec scenario: activation fd 10, interest list with
fds 11 and 12 stored in the data words. -/
def devW : Device :=
  { device_type := 1, activate_fd := 10,
    interest_list := [{ events := 1, data := 11 }, { events := 1, data := 12 }] }

/-- A device whose single interest entry holds 2 ^ 32 + 7 in its data
word, so the registration key is the truncated value 7. -/
def devHighData : Device :=
  { device_type := 1, activate_fd := 10,
    interest_list := [{ events := 1, data := 2 ^ 32 + 7 }] }

/-- The registry of an inactive device: only the activation fd 10 is
registered, under subscriber handle 3. -/
def emW : EventManager := { registry := [(10, 3)] }

/-- An empty registry, on which every lookup fails. -/
def emEmpty : EventManager := { registry := [] }

end VirtioDev

open Gic VirtioDev

/-- Case characterization of finalize_device by the oracle response to
the two attribute calls it makes. -/
theorem finalize_device_eq (kvm : Kvm) (irq_max fd : Nat) :
    finalize_device kvm irq_max fd =
      match kvm.setDeviceAttr fd (nrIrqsCall irq_max) with
      | .error e => (.error (.DeviceAttribute e true KVM_DEV_ARM_VGIC_GRP_NR_IRQS),
          [.setAttr fd (nrIrqsCall irq_max)])
      | .ok _ =>
        match kvm.setDeviceAttr fd ctrlInitCall with
        | .error e => (.error (.DeviceAttribute e true KVM_DEV_ARM_VGIC_GRP_CTRL),
            [.setAttr fd (nrIrqsCall irq_max), .setAttr fd ctrlInitCall])
        | .ok _ => (.ok (), [.setAttr fd (nrIrqsCall irq_max),
            .setAttr fd ctrlInitCall]) := by
  unfold finalize_device set_device_attribute nrIrqsCall ctrlInitCall
  rcases h1 : kvm.setDeviceAttr fd
      { group := KVM_DEV_ARM_VGIC_GRP_NR_IRQS, attr := 0,
        addr := .ptrTo irq_max, flags := 0 } with e | u
  · simp [h1]
  · rcases h2 : kvm.setDeviceAttr fd
        { group := KVM_DEV_ARM_VGIC_GRP_CTRL, attr := KVM_DEV_ARM_VGIC_CTRL_INIT,
          addr := .lit 0, flags := 0 } with e | u
    · simp [h1, h2]
    · simp [h1, h2]

/-- Claim C1, counterexample: at IRQ ceiling 128, the IRQ-count attribute
call actually issued by finalize_device carries the ceiling value 128
itself, and is not the call carrying the value 128 - 32 = 96 that the
claim asserts. -/
theorem C1_irq_count_claimed_value_cex :
    (finalize_device kvmOk 128 0).2.head? = some (.setAttr 0 (nrIrqsCall 128)) ∧
    ¬ (finalize_device kvmOk 128 0).2.head? =
        some (.setAttr 0 (nrIrqsCall (128 - 32))) := by decide

/-- Claim C1, amended: during finalization the value passed for the
IRQ-count attribute (group number-of-IRQs) is the fixed architectural IRQ
ceiling itself (pointer to nr_irqs = IRQ_MAX), not ceiling minus 32; the
reserved low 32 lines mean that ceiling minus 32 SPIs end up usable, but
the attribute payload is the ceiling. -/
theorem C1_irq_count_attribute_value (kvm : Kvm) (irq_max fd : Nat) :
    (finalize_device kvm irq_max fd).2.head? =
      some (.setAttr fd (nrIrqsCall irq_max)) := by
  rcases h1 : kvm.setDeviceAttr fd (nrIrqsCall irq_max) with e | u
  · simp [finalize_device_eq, h1]
  · rcases h2 : kvm.setDeviceAttr fd ctrlInitCall with e | u <;>
      simp [finalize_device_eq, h1, h2]

/-- Claim C2: create_gic attempts the full GICv3 protocol first; when that
attempt fails and the GICv2 attempt also fails, the returned error is the
GICv2 (last) one, the GICv3 error being discarded, and the trace shows the
GICv3 attempt followed by the GICv2 attempt. -/
theorem C2_create_gic_fallback_last_error (kvm : Kvm) (irq_max n : Nat)
    (e3 e2 : Error)
    (h3 : (new kvm irq_max GICv3 n).1 = .error e3)
    (h2 : (new kvm irq_max GICv2 n).1 = .error e2) :
    (create_gic kvm irq_max n).1 = .error e2 ∧
    (create_gic kvm irq_max n).2 =
      (new kvm irq_max GICv3 n).2 ++ (new kvm irq_max GICv2 n).2 := by
  unfold create_gic
  simp [h3, h2]

/-- Claim C2, witness: on an oracle whose device creation fails with the
requested type tag as error code, create_gic returns the GICv2 failure
(CreateGIC 5), not the GICv3 one (CreateGIC 7). -/
theorem C2_create_gic_fallback_last_error_witness :
    (create_gic kvmNoCreate 128 1).1 =
      .error (.CreateGIC KVM_DEV_TYPE_ARM_VGIC_V2) ∧
    (create_gic kvmNoCreate 128 1).2 =
      (new kvmNoCreate 128 GICv3 1).2 ++ (new kvmNoCreate 128 GICv2 1).2 :=
  C2_create_gic_fallback_last_error kvmNoCreate 128 1
    (.CreateGIC KVM_DEV_TYPE_ARM_VGIC_V3) (.CreateGIC KVM_DEV_TYPE_ARM_VGIC_V2)
    rfl rfl

/-- Claim C6: within finalize_device the IRQ-count attribute call always
comes strictly before the control-init call; the control-init call carries
a literal zero address (no payload); and when the kernel rejects the
IRQ-count call, the trace consists of that single call, so control-init is
never issued. -/
theorem C6_finalize_attribute_order (kvm : Kvm) (irq_max fd : Nat) :
    (∀ e, kvm.setDeviceAttr fd (nrIrqsCall irq_max) = .error e →
      (finalize_device kvm irq_max fd).2 = [.setAttr fd (nrIrqsCall irq_max)]) ∧
    (kvm.setDeviceAttr fd (nrIrqsCall irq_max) = .ok () →
      (finalize_device kvm irq_max fd).2 =
        [.setAttr fd (nrIrqsCall irq_max), .setAttr fd ctrlInitCall]) ∧
    ctrlInitCall.addr = .lit 0 := by
  refine ⟨fun e h1 => ?_, fun h1 => ?_, rfl⟩
  · simp [finalize_device_eq, h1]
  · rcases h2 : kvm.setDeviceAttr fd ctrlInitCall with e | u <;>
      simp [finalize_device_eq, h1, h2]

/-- Claim C6, witness: on the all-accepting oracle the trace is the
IRQ-count call followed by the control-init call; on the oracle rejecting
the IRQ-count group the trace stops after the IRQ-count call. -/
theorem C6_finalize_attribute_order_witness :
    (finalize_device kvmOk 128 0).2 =
      [.setAttr 0 (nrIrqsCall 128), .setAttr 0 ctrlInitCall] ∧
    (finalize_device kvmRejectNrIrqs 128 0).2 = [.setAttr 0 (nrIrqsCall 128)] :=
  ⟨(C6_finalize_attribute_order kvmOk 128 0).2.1 rfl,
   (C6_finalize_attribute_order kvmRejectNrIrqs 128 0).1 22 rfl⟩

/-- Claim C7: for every variant, new performs kernel device creation
first (a failure there is terminal with Error.CreateGIC and no further
kernel call), then wraps the fd infallibly via create_device, then runs
the variant configuration, then the shared finalization; a configuration
failure aborts before any finalization call, a finalization failure
aborts, and only the all-success path returns the wrapped device. -/
theorem C7_variant_construction_protocol (kvm : Kvm) (irq_max : Nat)
    (v : Variant) (n : Nat) :
    (∀ e, kvm.createDevice v.version = .error e →
      new kvm irq_max v n = (.error (.CreateGIC e), [.createDev v.version])) ∧
    (∀ fd e, kvm.createDevice v.version = .ok fd →
      (v.initDeviceAttributes kvm (v.create_device fd n)).1 = .error e →
      new kvm irq_max v n =
        (.error e, .createDev v.version ::
          (v.initDeviceAttributes kvm (v.create_device fd n)).2)) ∧
    (∀ fd e, kvm.createDevice v.version = .ok fd →
      (v.initDeviceAttributes kvm (v.create_device fd n)).1 = .ok () →
      (finalize_device kvm irq_max (v.create_device fd n).device_fd).1 = .error e →
      new kvm irq_max v n =
        (.error e, .createDev v.version ::
          ((v.initDeviceAttributes kvm (v.create_device fd n)).2 ++
            (finalize_device kvm irq_max (v.create_device fd n).device_fd).2))) ∧
    (∀ fd, kvm.createDevice v.version = .ok fd →
      (v.initDeviceAttributes kvm (v.create_device fd n)).1 = .ok () →
      (finalize_device kvm irq_max (v.create_device fd n).device_fd).1 = .ok () →
      new kvm irq_max v n =
        (.ok (v.create_device fd n), .createDev v.version ::
          ((v.initDeviceAttributes kvm (v.create_device fd n)).2 ++
            (finalize_device kvm irq_max (v.create_device fd n).device_fd).2))) := by
  refine ⟨fun e h0 => ?_, fun fd e h0 h1 => ?_, fun fd e h0 h1 h2 => ?_,
    fun fd h0 h1 h2 => ?_⟩
  · simp [new, init_device, h0]
  · simp [new, init_device, h0, h1]
  · simp [new, init_device, h0, h1, h2]
  · simp [new, init_device, h0, h1, h2]

/-- Claim C7, witness: on the all-accepting oracle the GICv2 attempt
returns the infallibly wrapped device and the full ordered trace of
creation, configuration and finalization operations. -/
theorem C7_variant_construction_protocol_witness :
    new kvmOk 128 GICv2 1 =
      (.ok (GICv2.create_device 0 1), .createDev GICv2.version ::
        ((GICv2.initDeviceAttributes kvmOk (GICv2.create_device 0 1)).2 ++
          (finalize_device kvmOk 128 (GICv2.create_device 0 1).device_fd).2)) :=
  (C7_variant_construction_protocol kvmOk 128 GICv2 1).2.2.2 0 rfl rfl rfl

/-- Closed form of the registration loop: the registry gains one binding
per non-failing entry (in order, keyed by data-as-i32, all under handle h)
and the trace records one register call per entry, failing or not. -/
theorem registerLoop_eq (env : Env) (h : Nat) (evs : List EpollEvent)
    (em : EventManager) :
    registerLoop env h evs em =
      ({ registry := em.registry ++
          (evs.filter (fun ev => ! env.registerFail (dataAsI32 ev.data))).map
            (fun ev => (dataAsI32 ev.data, h)) },
        evs.map (fun ev =>
          .registerOp (dataAsI32 ev.data) ev h
            (! env.registerFail (dataAsI32 ev.data)))) := by
  induction evs generalizing em with
  | nil => simp [registerLoop]
  | cons ev rest ih =>
    cases hf : env.registerFail (dataAsI32 ev.data) with
    | false => simp [registerLoop, EventManager.register, hf, ih]
    | true => simp [registerLoop, EventManager.register, hf, ih]

/-- A successful subscriber lookup implies the fd is bound in the
registry, stated through List.any. -/
theorem subscriber_some_any (em : EventManager) (fd : Int) (h : Nat)
    (hs : em.subscriber fd = some h) :
    em.registry.any (fun p => p.1 == fd) = true := by
  unfold EventManager.subscriber at hs
  rcases hfind : em.registry.find? (fun p => p.1 == fd) with _ | p
  · simp [hfind] at hs
  · have hp := List.find?_some hfind
    exact List.any_eq_true.mpr ⟨p, List.mem_of_find?_eq_some hfind, hp⟩

/-- Closed form of process_activate_event when the subscriber lookup
succeeds with handle h: the device is returned unchanged, the final
registry is the appended one with the activation fd bindings removed, and
the trace is drain, lookup, the register calls in interest order, and the
final unregister of the activation fd. -/
theorem process_found_eq (d : Device) (env : Env) (em : EventManager) (h : Nat)
    (hs : em.subscriber d.activate_fd = some h) :
    process_activate_event d env em =
      (d,
        { registry := (em.registry ++
            (d.interest_list.filter
              (fun ev => ! env.registerFail (dataAsI32 ev.data))).map
              (fun ev => (dataAsI32 ev.data, h))).filter
            (fun p => p.1 != d.activate_fd) },
        .drain d.activate_fd env.drainOk :: .lookup d.activate_fd true ::
          (d.interest_list.map (fun ev =>
            .registerOp (dataAsI32 ev.data) ev h
              (! env.registerFail (dataAsI32 ev.data))) ++
            [.unregisterOp d.activate_fd true])) := by
  have hany := subscriber_some_any em d.activate_fd h hs
  simp only [process_activate_event, hs, registerLoop_eq,
    EventManager.unregister, List.any_append, hany, Bool.true_or, if_pos]

/-- Closed form of process_activate_event when the subscriber lookup
fails: the transition aborts after the drain and the failed lookup, the
event manager is returned unchanged, and no register or unregister call
appears in the trace. -/
theorem process_not_found_eq (d : Device) (env : Env) (em : EventManager)
    (h_none : em.subscriber d.activate_fd = none) :
    process_activate_event d env em =
      (d, em, [.drain d.activate_fd env.drainOk,
        .lookup d.activate_fd false]) := by
  simp [process_activate_event, h_none]

/-- The register keys of a trace of register calls over a mapped interest
list are exactly the data-as-i32 values, in order. -/
theorem regKeys_registers (h : Nat) (env : Env) (l : List EpollEvent) :
    regKeys (l.map (fun ev => Effect.registerOp (dataAsI32 ev.data) ev h
      (! env.registerFail (dataAsI32 ev.data)))) =
      l.map (fun ev => dataAsI32 ev.data) := by
  induction l with
  | nil => rfl
  | cons ev rest ih => simpa [regKeys] using ih

/-- Claim C3: from the Inactive state (registry holds exactly the
activation fd under handle h), one successful activation run leaves the
registry mapping each interest fd to h with the activation fd absent; the
trace shows exactly one drain, one successful register per interest entry
under h, and one unregister of the activation fd; and a second readiness
delivery in any environment performs no registry mutation because the
lookup fails harmlessly. -/
theorem C3_activation_transition_once (d : Device) (env : Env)
    (em : EventManager) (h : Nat)
    (h_inactive : em.registry = [(d.activate_fd, h)])
    (h_ok : ∀ fd, env.registerFail fd = false)
    (h_ne : ∀ ev ∈ d.interest_list, dataAsI32 ev.data ≠ d.activate_fd) :
    (process_activate_event d env em).2.1.registry =
      d.interest_list.map (fun ev => (dataAsI32 ev.data, h)) ∧
    (process_activate_event d env em).2.2 =
      .drain d.activate_fd env.drainOk :: .lookup d.activate_fd true ::
        (d.interest_list.map (fun ev =>
          .registerOp (dataAsI32 ev.data) ev h true) ++
          [.unregisterOp d.activate_fd true]) ∧
    (process_activate_event d env em).2.1.subscriber d.activate_fd = none ∧
    (∀ env2, process_activate_event d env2 (process_activate_event d env em).2.1 =
      (d, (process_activate_event d env em).2.1,
        [.drain d.activate_fd env2.drainOk, .lookup d.activate_fd false])) := by
  have hs : em.subscriber d.activate_fd = some h := by
    simp [EventManager.subscriber, h_inactive]
  have heq := process_found_eq d env em h hs
  have hreg : (process_activate_event d env em).2.1.registry =
      d.interest_list.map (fun ev => (dataAsI32 ev.data, h)) := by
    rw [heq]
    simp only [h_inactive, h_ok, Bool.not_false, List.filter_true,
      List.singleton_append, List.filter_cons]
    simp only [bne_self_eq_false, Bool.false_eq_true, if_neg, ite_false]
    exact List.filter_eq_self.mpr (fun x hx => by
      rcases List.mem_map.mp hx with ⟨ev, hev, rfl⟩
      simpa using h_ne ev hev)
  have hnone : (process_activate_event d env em).2.1.subscriber d.activate_fd
      = none := by
    unfold EventManager.subscriber
    rw [hreg, List.find?_eq_none.mpr ?_]
    · rfl
    · intro x hx
      rcases List.mem_map.mp hx with ⟨ev, hev, rfl⟩
      simpa using h_ne ev hev
  refine ⟨hreg, ?_, hnone, fun env2 => ?_⟩
  · rw [heq]
    simp [h_ok]
  · exact process_not_found_eq d env2 _ hnone

/-- Claim C3, witness: the spec scenario — activation fd 10 under handle
3, interest fds 11 and 12 — ends with the registry mapping 11 and 12 to 3
and fd 10 absent, with the expected trace, and a second delivery mutates
nothing. -/
theorem C3_activation_transition_once_witness :
    (process_activate_event devW envAllOk emW).2.1.registry =
      [(11, 3), (12, 3)] ∧
    (process_activate_event devW envAllOk emW).2.2 =
      [.drain 10 true, .lookup 10 true,
        .registerOp 11 { events := 1, data := 11 } 3 true,
        .registerOp 12 { events := 1, data := 12 } 3 true,
        .unregisterOp 10 true] ∧
    (process_activate_event devW envAllOk emW).2.1.subscriber 10 = none ∧
    process_activate_event devW envAllOk
        (process_activate_event devW envAllOk emW).2.1 =
      (devW, (process_activate_event devW envAllOk emW).2.1,
        [.drain 10 true, .lookup 10 false]) := by
  obtain ⟨h1, h2, h3, h4⟩ :=
    C3_activation_transition_once devW envAllOk emW 3 rfl (fun _ => rfl)
      (by decide)
  exact ⟨h1.trans (by decide), h2.trans (by decide), h3, h4 envAllOk⟩

/-- Claim C4: when the subscriber lookup keyed by the activation fd fails,
the transition aborts with the event manager unchanged and a trace holding
only the drain and the failed lookup — no register and no unregister call
— and the function returns normally (no error propagates). -/
theorem C4_lookup_failure_aborts (d : Device) (env : Env) (em : EventManager)
    (h_none : em.subscriber d.activate_fd = none) :
    process_activate_event d env em =
      (d, em, [.drain d.activate_fd env.drainOk,
        .lookup d.activate_fd false]) :=
  process_not_found_eq d env em h_none

/-- Claim C4, witness: on an empty registry the activation run of the
scenario device returns the registry unchanged after only the drain and
the failed lookup. -/
theorem C4_lookup_failure_aborts_witness :
    process_activate_event devW envAllOk emEmpty =
      (devW, emEmpty, [.drain 10 true, .lookup 10 false]) :=
  C4_lookup_failure_aborts devW envAllOk emEmpty rfl

/-- Claim C5: on the success path every interest-list entry produces its
register call (failing registrations included, logged and skipped without
aborting) strictly before the single unregister call of the activation fd,
which is the last effect of the trace — never the reverse order. -/
theorem C5_registers_before_unregister (d : Device) (env : Env)
    (em : EventManager) (h : Nat)
    (hs : em.subscriber d.activate_fd = some h) :
    (process_activate_event d env em).2.2 =
      (.drain d.activate_fd env.drainOk :: .lookup d.activate_fd true ::
        d.interest_list.map (fun ev =>
          .registerOp (dataAsI32 ev.data) ev h
            (! env.registerFail (dataAsI32 ev.data)))) ++
        [.unregisterOp d.activate_fd true] := by
  rw [process_found_eq d env em h hs]
  simp [List.cons_append]

/-- Claim C5, witness: with the register call for fd 12 made to fail, the
trace still holds a register call for both entries (fd 12 marked failed)
and the unregister of fd 10 comes last. -/
theorem C5_registers_before_unregister_witness :
    (process_activate_event devW envFail12 emW).2.2 =
      [.drain 10 true, .lookup 10 true,
        .registerOp 11 { events := 1, data := 11 } 3 true,
        .registerOp 12 { events := 1, data := 12 } 3 false,
        .unregisterOp 10 true] :=
  (C5_registers_before_unregister devW envFail12 emW 3 (by decide)).trans
    (by decide)

/-- Claim C8: a failed drain of the activation signal changes nothing but
the recorded drain outcome: the final event manager and the whole trace
after the drain coincide with the successful-drain run, for every device,
registry and register-failure pattern. -/
theorem C8_drain_failure_does_not_abort (d : Device) (rf : Int → Bool)
    (em : EventManager) :
    (process_activate_event d { drainOk := false, registerFail := rf } em).2.1 =
      (process_activate_event d { drainOk := true, registerFail := rf } em).2.1 ∧
    (process_activate_event d { drainOk := false, registerFail := rf } em).2.2.tail =
      (process_activate_event d { drainOk := true, registerFail := rf } em).2.2.tail ∧
    (process_activate_event d { drainOk := false, registerFail := rf } em).2.2.head? =
      some (.drain d.activate_fd false) ∧
    (process_activate_event d { drainOk := true, registerFail := rf } em).2.2.head? =
      some (.drain d.activate_fd true) := by
  rcases hs : em.subscriber d.activate_fd with _ | h
  · simp [process_not_found_eq d _ em hs]
  · rw [process_found_eq d { drainOk := false, registerFail := rf } em h hs,
      process_found_eq d { drainOk := true, registerFail := rf } em h hs]
    simp

/-- Claim C9: on the success path the fd key under which each interest
entry is registered is exactly its data word cast to i32 — the register
keys of the trace are the data-as-i32 values of the interest list, in
order, with no other source for the key. -/
theorem C9_register_key_is_data_as_i32 (d : Device) (env : Env)
    (em : EventManager) (h : Nat)
    (hs : em.subscriber d.activate_fd = some h) :
    regKeys (process_activate_event d env em).2.2 =
      d.interest_list.map (fun ev => dataAsI32 ev.data) := by
  rw [process_found_eq d env em h hs]
  have hmap := regKeys_registers h env d.interest_list
  simp only [regKeys, List.filterMap_cons, List.filterMap_append] at hmap ⊢
  simpa using hmap

/-- Claim C9, witness: an interest entry whose data word is 2 ^ 32 + 7 is
registered under key 7 (the truncated i32 value), not under any fd of the
device. -/
theorem C9_register_key_is_data_as_i32_witness :
    regKeys (process_activate_event devHighData envAllOk emW).2.2 = [7] :=
  (C9_register_key_is_data_as_i32 devHighData envAllOk emW 3 (by decide)).trans
    (by decide)

/-- Claim C10: every run of process_activate_event returns the device
value unchanged (it is taken by shared reference), and its effect trace
starts with the single drain of the activation eventfd — exactly one drain
occurs, all remaining effects being lookup, register or unregister calls
on the event manager (the only effect constructors). -/
theorem C10_activation_frame_effects (d : Device) (env : Env)
    (em : EventManager) :
    (process_activate_event d env em).1 = d ∧
    (process_activate_event d env em).2.2.head? =
      some (.drain d.activate_fd env.drainOk) ∧
    (process_activate_event d env em).2.2.countP (fun e => e.isDrain) = 1 := by
  rcases hs : em.subscriber d.activate_fd with _ | h
  · simp [process_not_found_eq d env em hs, Effect.isDrain, List.countP_cons]
  · rw [process_found_eq d env em h hs]
    refine ⟨rfl, rfl, ?_⟩
    have hzero : (d.interest_list.map (fun ev =>
        Effect.registerOp (dataAsI32 ev.data) ev h
          (! env.registerFail (dataAsI32 ev.data)))).countP
        (fun e => e.isDrain) = 0 := by
      apply List.countP_eq_zero.mpr
      intro x hx
      rcases List.mem_map.mp hx with ⟨ev, hev, rfl⟩
      simp [Effect.isDrain]
    simp [List.countP_cons, List.countP_append, Effect.isDrain, hzero]
